import Mathlib

/-!
Shallow embedding of the `meu-ponto-fit` web service (`src/app.py`).

The service exposes two handlers over a table `alimentos` of foods:

* `search` (`GET /search?q=...`): guard `len(q) < 2`, then the SQL query
  `SELECT nome_alimento FROM alimentos WHERE nome_alimento ILIKE q+'%'
  ORDER BY nome_alimento LIMIT 10`;
* `calculate` (`POST /calculate`): reads JSON keys `food` and `quantity`,
  validates them, looks the food up by exact name, scales the per-100g
  values `calorias_kcal` and `gordura_total_g` to the requested quantity
  and scores them with `calcular_pontos`.

Python floats are modelled as exact rationals together with the IEEE
special values (`inf`, `-inf`, `nan`); `float` arithmetic is modelled as
exact rational arithmetic extended with the usual special-value rules.
The database is modelled as the list of rows of the `alimentos` table
(`NUMERIC(10,2)` columns become optional rationals, `NULL` becoming
`none`); a failed `psycopg2.connect` is modelled by passing `none`
instead of a table.
-/

deriving instance DecidableEq for Except

/-- A Python `float` value: a finite value (modelled exactly as a
rational) or one of the IEEE special values. -/
inductive PyFloat where
  | finite (val : ℚ)
  | posInf
  | negInf
  | nan
deriving DecidableEq

/-- Python `x <= y` on floats: any comparison with `nan` is `False`. -/
def pyLe : PyFloat → PyFloat → Bool
  | .nan, _ => false
  | _, .nan => false
  | .negInf, _ => true
  | .finite _, .negInf => false
  | .posInf, .negInf => false
  | .finite a, .finite b => decide (a ≤ b)
  | .finite _, .posInf => true
  | .posInf, .finite _ => false
  | .posInf, .posInf => true

/-- Python `x + y` on floats (special values as in IEEE 754). -/
def pyAdd : PyFloat → PyFloat → PyFloat
  | .nan, _ => .nan
  | _, .nan => .nan
  | .posInf, .negInf => .nan
  | .negInf, .posInf => .nan
  | .posInf, _ => .posInf
  | .finite _, .posInf => .posInf
  | .negInf, _ => .negInf
  | .finite _, .negInf => .negInf
  | .finite a, .finite b => .finite (a + b)

/-- Python `x * y` on floats: `0 * inf` is `nan`, signs as in IEEE 754. -/
def pyMul : PyFloat → PyFloat → PyFloat
  | .nan, _ => .nan
  | _, .nan => .nan
  | .posInf, .posInf => .posInf
  | .posInf, .negInf => .negInf
  | .negInf, .posInf => .negInf
  | .negInf, .negInf => .posInf
  | .posInf, .finite b => if 0 < b then .posInf else if b < 0 then .negInf else .nan
  | .finite a, .posInf => if 0 < a then .posInf else if a < 0 then .negInf else .nan
  | .negInf, .finite b => if 0 < b then .negInf else if b < 0 then .posInf else .nan
  | .finite a, .negInf => if 0 < a then .negInf else if a < 0 then .posInf else .nan
  | .finite a, .finite b => .finite (a * b)

/-- Python `x / d` on floats for a positive finite constant `d`
(the only divisions in the program are by the literals `60`, `9`, `100`). -/
def pyDivPos : PyFloat → ℚ → PyFloat
  | .finite a, d => .finite (a / d)
  | .posInf, _ => .posInf
  | .negInf, _ => .negInf
  | .nan, _ => .nan

/-- Python's built-in `round` to an integer: round half to even. -/
def bankerRound (q : ℚ) : ℤ :=
  if q - ⌊q⌋ < 1/2 then ⌊q⌋
  else if (1 : ℚ)/2 < q - ⌊q⌋ then ⌊q⌋ + 1
  else if ⌊q⌋ % 2 = 0 then ⌊q⌋ else ⌊q⌋ + 1

/-- Python `round(x)` on a float: raises (`OverflowError`/`ValueError`,
modelled as `.error ()`) on the special values. -/
def pyRound : PyFloat → Except Unit ℤ
  | .finite q => .ok (bankerRound q)
  | _ => .error ()

/-- `calcular_pontos` (`src/app.py` lines 28-33):

    def calcular_pontos(calorias, gorduras):
        if calorias is None or gorduras is None:
            return 0
        return max(0, round((float(calorias) / 60) + (float(gorduras) / 9)))

`float` applied to a float is the identity; an uncaught exception from
`round` is propagated as `.error ()`. -/
def calcular_pontos (calorias gorduras : Option PyFloat) : Except Unit ℤ :=
  match calorias, gorduras with
  | none, _ => .ok 0
  | _, none => .ok 0
  | some c, some g =>
    match pyRound (pyAdd (pyDivPos c 60) (pyDivPos g 9)) with
    | .ok r => .ok (max 0 r)
    | .error e => .error e

/-! ### Python `float(str)` parsing

Model of `float` applied to a string, covering signs, whitespace
trimming, `inf`/`infinity`/`nan` (case-insensitive), and decimal
literals with optional fraction and exponent.  (Digit-group underscores
and non-ASCII digit forms accepted by CPython are outside the model.) -/

/-- Strip leading and trailing whitespace. -/
def trimChars (l : List Char) : List Char :=
  ((l.dropWhile (·.isWhitespace)).reverse.dropWhile (·.isWhitespace)).reverse

/-- Split a list at the first occurrence of `c`, dropping it; `none` if
`c` does not occur. -/
def splitFirst (c : Char) : List Char → Option (List Char × List Char)
  | [] => none
  | a :: as =>
    if a = c then some ([], as)
    else
      match splitFirst c as with
      | some (pre, post) => some (a :: pre, post)
      | none => none

/-- Numeric value of a list of decimal digits. -/
def digitsVal (l : List Char) : ℕ :=
  l.foldl (fun n c => n * 10 + (c.toNat - 48)) 0

/-- Every character is a decimal digit. -/
def allDigits (l : List Char) : Bool :=
  l.all (·.isDigit)

/-- Parse the mantissa `digits[.digits]` of a float literal (at least
one digit overall, as in Python: `"5."`, `".5"` are legal, `"."` is not). -/
def parseMantissa (l : List Char) : Option ℚ :=
  match splitFirst '.' l with
  | none =>
    if l ≠ [] ∧ allDigits l then some ((digitsVal l : ℕ) : ℚ) else none
  | some (ip, fp) =>
    if (ip ≠ [] ∨ fp ≠ []) ∧ allDigits ip ∧ allDigits fp then
      some (((digitsVal ip : ℕ) : ℚ) + ((digitsVal fp : ℕ) : ℚ) / (10 : ℚ) ^ fp.length)
    else none

/-- Parse a (lowercased, sign-stripped) float literal `mantissa[e[±]digits]`. -/
def parseDecimal (l : List Char) : Option ℚ :=
  match splitFirst 'e' l with
  | none => parseMantissa l
  | some (m, e) =>
    match parseMantissa m with
    | none => none
    | some q =>
      let expSplit : Bool × List Char :=
        match e with
        | '+' :: r => (false, r)
        | '-' :: r => (true, r)
        | r => (false, r)
      if expSplit.2 ≠ [] ∧ allDigits expSplit.2 then
        some (q * (10 : ℚ) ^ (if expSplit.1 then -(digitsVal expSplit.2 : ℤ) else (digitsVal expSplit.2 : ℤ)))
      else none

/-- Python `float(s)` on a string: `none` models a raised `ValueError`. -/
def pyFloatOfString (s : String) : Option PyFloat :=
  match trimChars s.data with
  | [] => none
  | t =>
    let signSplit : Bool × List Char :=
      match t with
      | '+' :: r => (false, r)
      | '-' :: r => (true, r)
      | r => (false, r)
    let low := signSplit.2.map Char.toLower
    if low = "inf".data ∨ low = "infinity".data then
      some (if signSplit.1 then .negInf else .posInf)
    else if low = "nan".data then some .nan
    else
      match parseDecimal low with
      | some q => some (.finite (if signSplit.1 then -q else q))
      | none => none

/-- A JSON value as it reaches the handler: a string or a number
(numbers are modelled by the float they convert to). -/
inductive PyVal where
  | s (str : String)
  | n (val : PyFloat)
deriving DecidableEq

/-- Python `float(x)` on a string-or-number value. -/
def pyFloatOfVal : PyVal → Option PyFloat
  | .s str => pyFloatOfString str
  | .n v => some v

/-- Python truthiness of a string-or-number value (`not x` in the
handler): the empty string and `0.0` are falsy, `nan` and `inf` truthy. -/
def pyTruthy : PyVal → Bool
  | .s str => !(str == "")
  | .n v => !(v == PyFloat.finite 0)

/-! ### Data model -/

/-- One row of the `alimentos` table (`importar_dados.py` lines 15-24):
a unique name and four optional `NUMERIC(10,2)` per-100g values.
`calculate` selects only `calorias_kcal` and `gordura_total_g`. -/
structure FoodRow where
  nome_alimento : String
  calorias_kcal : Option ℚ
  gordura_total_g : Option ℚ
  fibra_alimentar_g : Option ℚ
  proteina_g : Option ℚ
deriving DecidableEq

/-- The decoded JSON body of a `POST /calculate` request, restricted to
the keys the spec mentions.  The handler reads only `food` and
`quantity` (`data.get('food')`, `data.get('quantity')`); the
`alimento`/`quantidade` fields record whether the Portuguese keys were
present so that their (non-)effect can be stated. -/
structure ReqBody where
  food : Option String
  quantity : Option PyVal
  alimento : Option String
  quantidade : Option PyVal
deriving DecidableEq

/-- Outcome of the `/calculate` handler.  `ok` is the HTTP 200 JSON
payload; `badRequest`/`notFound`/`serverError` are the handled 400, 404
and 500 responses; `unhandled` is an exception the handler does not
catch (`TypeError` from `float(None)`, `OverflowError`/`ValueError`
from `round`), which Flask turns into an HTTP 500. -/
inductive CalcResp where
  | ok (food_name : String) (quantity : PyFloat) (pontos : ℤ)
  | badRequest
  | notFound
  | serverError
  | unhandled
deriving DecidableEq

/-- `SELECT calorias_kcal, gordura_total_g FROM alimentos WHERE
nome_alimento = %s` followed by `fetchone()`: the first row whose name
is exactly (case-sensitively) the given one. -/
def lookupFood (food_name : String) (store : List FoodRow) : Option FoodRow :=
  store.find? (fun r => r.nome_alimento == food_name)

/-- The `calculate` handler (`src/app.py` lines 83-140).  `conn = none`
models a failed `psycopg2.connect`. -/
def calculate (body : ReqBody) (conn : Option (List FoodRow)) : CalcResp :=
  match body.food, body.quantity with
  | some food_name, some quantity_str =>
    if food_name == "" || !(pyTruthy quantity_str) then .badRequest
    else
      match pyFloatOfVal quantity_str with
      | none => .badRequest
      | some quantity =>
        if pyLe quantity (.finite 0) then .badRequest
        else
          match conn with
          | none => .serverError
          | some store =>
            match lookupFood food_name store with
            | none => .notFound
            | some row =>
              match row.calorias_kcal, row.gordura_total_g with
              | some cal, some fat =>
                match calcular_pontos
                    (some (pyMul (pyDivPos (.finite cal) 100) quantity))
                    (some (pyMul (pyDivPos (.finite fat) 100) quantity)) with
                | .ok pontos => .ok food_name quantity pontos
                | .error _ => .unhandled
              | _, _ => .unhandled
  | _, _ => .badRequest

/-! ### The search handler -/

/-- A token of a SQL `LIKE` pattern: `%` (any sequence), `_` (any single
character), or a literal character (ordinary, or escaped by `\`). -/
inductive LikeTok where
  | anySeq
  | anyOne
  | lit (c : Char)
deriving DecidableEq

/-- Does `f` accept some suffix of the list? -/
def anySuffix (f : List Char → Bool) : List Char → Bool
  | [] => f []
  | c :: t => f (c :: t) || anySuffix f t

/-- Tokenize a `LIKE` pattern: `\` escapes the next character (a
dangling final `\` is a PostgreSQL error; it cannot arise here because
the handler's patterns always end in `%`). -/
def likeLex : List Char → List LikeTok
  | [] => []
  | c :: p =>
    if c = '%' then .anySeq :: likeLex p
    else if c = '_' then .anyOne :: likeLex p
    else if c = '\\' then
      match p with
      | [] => []
      | d :: p2 => .lit d :: likeLex p2
    else .lit c :: likeLex p

/-- Run a tokenized pattern against a text.  Literal characters match
case-insensitively, giving `ILIKE` rather than `LIKE`. -/
def likeRun : List LikeTok → List Char → Bool
  | [], s => s.isEmpty
  | .anySeq :: ts, s => anySuffix (fun t => likeRun ts t) s
  | .anyOne :: ts, s =>
    match s with
    | [] => false
    | _ :: t => likeRun ts t
  | .lit c :: ts, s =>
    match s with
    | [] => false
    | d :: t => (c.toLower == d.toLower) && likeRun ts t

/-- PostgreSQL `ILIKE` pattern matching. -/
def ilikeMatch (pat s : List Char) : Bool :=
  likeRun (likeLex pat) s

/-- Code-point comparison of strings, modelling `ORDER BY nome_alimento`. -/
def charListLe : List Char → List Char → Bool
  | [], _ => true
  | _ :: _, [] => false
  | a :: as, b :: bs => if a < b then true else if b < a then false else charListLe as bs

/-- Insert a name into a sorted list of names. -/
def insertSorted (a : String) : List String → List String
  | [] => [a]
  | b :: bs => if charListLe a.data b.data then a :: b :: bs else b :: insertSorted a bs

/-- Sort names, modelling `ORDER BY nome_alimento`. -/
def sortNames : List String → List String
  | [] => []
  | a :: as => insertSorted a (sortNames as)

/-- Outcome of the `/search` handler: the HTTP 200 JSON list of names,
or the handled 500 response on connection failure. -/
inductive SearchResp where
  | ok (results : List String)
  | serverError
deriving DecidableEq

/-- The `search` handler (`src/app.py` lines 45-81).  The second
component records whether the handler touched the database
(`get_db_connection` and the query are only reached when `len(q) >= 2`).
The SQL `WHERE nome_alimento ILIKE q+'%' ORDER BY nome_alimento LIMIT
10` becomes filter, sort, take 10. -/
def search (q : String) (conn : Option (List FoodRow)) : SearchResp × Bool :=
  if q.length < 2 then (.ok [], false)
  else
    match conn with
    | none => (.serverError, true)
    | some store =>
      let hits := (store.map (·.nome_alimento)).filter
        (fun n => ilikeMatch (q.data ++ ['%']) n.data)
      (.ok ((sortNames hits).take 10), true)

/-- Spec-side predicate (from the claim's words, for comparison with
`ilikeMatch`): the name starts, case-insensitively, with the query
string taken literally. -/
def startsWithCI (pre s : String) : Bool :=
  List.isPrefixOf (pre.data.map Char.toLower) (s.data.map Char.toLower)

/-- Spec-side predicate (from the claim's words, for comparison with
the `calculate` validation block): the name is missing or empty, or the
quantity is missing, or it fails to convert to a float, or it converts
to a value `v` with `v <= 0` in Python float comparison. -/
def invalidCalcInput (body : ReqBody) : Bool :=
  (match body.food with
   | none => true
   | some s => s == "") ||
  (match body.quantity with
   | none => true
   | some v =>
     match pyFloatOfVal v with
     | none => true
     | some x => pyLe x (.finite 0))

/-! ## Helper lemmas -/

theorem pyLe_finite_zero (q : ℚ) (h : 0 < q) :
    pyLe (.finite q) (.finite 0) = false := by
  simp only [pyLe, decide_eq_false_iff_not, not_le]
  exact h

theorem pyFloatOfString_empty : pyFloatOfString "" = none := rfl

theorem pyTruthy_of_parse (qv : PyVal) (x : PyFloat)
    (hparse : pyFloatOfVal qv = some x)
    (hle : pyLe x (.finite 0) = false) : pyTruthy qv = true := by
  cases qv with
  | s str =>
    by_cases hs : str = ""
    · rw [hs] at hparse
      simp only [pyFloatOfVal, pyFloatOfString_empty] at hparse
      exact absurd hparse (by simp)
    · simp [pyTruthy, hs]
  | n v =>
    simp only [pyFloatOfVal, Option.some.injEq] at hparse
    by_cases hv : v = .finite 0
    · rw [← hparse] at hle
      rw [hv] at hle
      simp [pyLe] at hle
    · simp [pyTruthy, hv]

theorem calcularPontos_nonneg (c g : Option PyFloat) (n : ℤ)
    (h : calcular_pontos c g = .ok n) : 0 ≤ n := by
  cases c with
  | none =>
    simp only [calcular_pontos, Except.ok.injEq] at h
    omega
  | some c =>
    cases g with
    | none =>
      simp only [calcular_pontos, Except.ok.injEq] at h
      omega
    | some g =>
      simp only [calcular_pontos] at h
      cases hr : pyRound (pyAdd (pyDivPos c 60) (pyDivPos g 9)) with
      | ok r =>
        rw [hr] at h
        simp only [Except.ok.injEq] at h
        subst h
        exact le_max_left 0 r
      | error e =>
        rw [hr] at h
        simp at h

theorem bankerRound_half (k : ℤ) :
    bankerRound ((k : ℚ) + 1/2) = if k % 2 = 0 then k else k + 1 := by
  have hf : ⌊(k : ℚ) + 1/2⌋ = k := by
    rw [Int.floor_int_add]
    norm_num
  have h2 : (k : ℚ) + 1/2 - ⌊(k : ℚ) + 1/2⌋ = 1/2 := by
    rw [hf]; ring
  unfold bankerRound
  rw [h2, hf]
  norm_num

theorem likeLex_clean_append (pat : List Char)
    (hclean : ∀ c ∈ pat, c ≠ '%' ∧ c ≠ '_' ∧ c ≠ '\\') :
    likeLex (pat ++ ['%']) = pat.map .lit ++ [.anySeq] := by
  induction pat with
  | nil => rfl
  | cons a p ih =>
    obtain ⟨ha1, ha2, ha3⟩ := hclean a (List.mem_cons_self a p)
    have hp : ∀ c ∈ p, c ≠ '%' ∧ c ≠ '_' ∧ c ≠ '\\' :=
      fun c hc => hclean c (List.mem_cons_of_mem a hc)
    rw [List.cons_append, likeLex.eq_def]
    simp only [ha1, ha2, ha3, if_false, ih hp, List.map_cons, List.cons_append]

theorem anySuffix_isEmpty (s : List Char) :
    anySuffix (fun t => t.isEmpty) s = true := by
  induction s with
  | nil => rfl
  | cons c t ih => simp [anySuffix, ih]

theorem likeRun_lit_isPrefixOf (pat : List Char) (s : List Char) :
    likeRun (pat.map .lit ++ [.anySeq]) s =
      List.isPrefixOf (pat.map Char.toLower) (s.map Char.toLower) := by
  induction pat generalizing s with
  | nil =>
    simp only [List.map_nil, List.nil_append, likeRun, anySuffix_isEmpty,
      List.isPrefixOf_nil_left]
  | cons a p ih =>
    cases s with
    | nil => simp [likeRun]
    | cons b t =>
      simp only [List.map_cons, List.cons_append, likeRun, List.append_eq, ih,
        List.isPrefixOf_cons₂]

/-- On a pattern `pat ++ ['%']` whose stem contains no wildcard and no
escape character, `ILIKE` matching is exactly a case-insensitive
starts-with test. -/
theorem ilike_clean_eq_isPrefixOf (pat : List Char)
    (hclean : ∀ c ∈ pat, c ≠ '%' ∧ c ≠ '_' ∧ c ≠ '\\') (s : List Char) :
    ilikeMatch (pat ++ ['%']) s =
      List.isPrefixOf (pat.map Char.toLower) (s.map Char.toLower) := by
  unfold ilikeMatch
  rw [likeLex_clean_append pat hclean, likeRun_lit_isPrefixOf]

theorem invalid_quantity_of_falsy (v : PyVal) (h : pyTruthy v = false) :
    (match pyFloatOfVal v with
     | none => true
     | some x => pyLe x (.finite 0)) = true := by
  cases v with
  | s str =>
    have hs : str = "" := by simpa [pyTruthy] using h
    subst hs
    simp [pyFloatOfVal, pyFloatOfString_empty]
  | n x =>
    have hx : x = .finite 0 := by simpa [pyTruthy] using h
    subst hx
    simp [pyFloatOfVal, pyLe]

theorem calculate_valid_ne_badRequest (name : String) (v : PyVal) (x : PyFloat)
    (al : Option String) (qd : Option PyVal) (conn : Option (List FoodRow))
    (hn : name ≠ "") (hp : pyFloatOfVal v = some x)
    (hle : pyLe x (.finite 0) = false) :
    calculate ⟨some name, some v, al, qd⟩ conn ≠ .badRequest := by
  have htr := pyTruthy_of_parse v x hp hle
  have hbeq : (name == "") = false := by simp [hn]
  simp only [calculate, hbeq, htr, hp, hle, Bool.not_true, Bool.or_false,
    Bool.false_or, if_false]
  rcases conn with _ | store
  · simp
  · rcases hlk : lookupFood name store with _ | row
    · simp [hlk]
    · rcases hcal : row.calorias_kcal with _ | c
      · simp [hlk, hcal]
      · rcases hfat : row.gordura_total_g with _ | g
        · simp [hlk, hcal, hfat]
        · rcases hcp : calcular_pontos
            (some (pyMul (pyDivPos (.finite c) 100) x))
            (some (pyMul (pyDivPos (.finite g) 100) x)) with p | e
          · simp [hlk, hcal, hfat, hcp]
          · simp [hlk, hcal, hfat, hcp]

theorem filter_name_length_le_one (name : String) (store : List FoodRow)
    (hnd : (store.map (·.nome_alimento)).Nodup) :
    (store.filter (fun r => r.nome_alimento == name)).length ≤ 1 := by
  induction store with
  | nil => simp
  | cons r rest ih =>
    simp only [List.map_cons, List.nodup_cons] at hnd
    obtain ⟨hnotin, hnd2⟩ := hnd
    by_cases hr : (r.nome_alimento == name) = true
    · have hname : r.nome_alimento = name := by simpa using hr
      have hrest : rest.filter (fun s => s.nome_alimento == name) = [] := by
        rw [List.filter_eq_nil_iff]
        intro s hs hb
        have : s.nome_alimento = name := by simpa using hb
        exact hnotin (by
          rw [hname, ← this]
          exact List.mem_map_of_mem (·.nome_alimento) hs)
      rw [List.filter_cons, if_pos hr, hrest]
      simp
    · rw [List.filter_cons, if_neg hr]
      exact ih hnd2

/-! ## The claims -/

/-- C1: for every stored food whose calories and fat per-100g values are
present and every valid quantity `q > 0`, the `/calculate` handler
returns `score = max(0, round(C/60 + F/9))` with
`C = caloriesPer100g/100*q` and `F = fatPer100g/100*q`. -/
theorem calculate_score_formula
    (body : ReqBody) (store : List FoodRow) (name : String) (qv : PyVal)
    (q c g : ℚ) (row : FoodRow)
    (hfood : body.food = some name)
    (hname : name ≠ "")
    (hq : body.quantity = some qv)
    (hparse : pyFloatOfVal qv = some (.finite q))
    (hpos : 0 < q)
    (hrow : lookupFood name store = some row)
    (hc : row.calorias_kcal = some c)
    (hg : row.gordura_total_g = some g) :
    calculate body (some store) =
      .ok name (.finite q)
        (max 0 (bankerRound (c / 100 * q / 60 + g / 100 * q / 9))) := by
  have hle := pyLe_finite_zero q hpos
  have htr := pyTruthy_of_parse qv _ hparse hle
  have hbeq : (name == "") = false := by simp [hname]
  simp [calculate, hfood, hq, hbeq, htr, hparse, hle, hrow, hc, hg,
    calcular_pontos, pyMul, pyDivPos, pyAdd, pyRound]

theorem calculate_score_formula_witness :
    (0 : ℚ) < 150 ∧
    calculate ⟨some "Arroz", some (.s "150"), none, none⟩
        (some [⟨"Arroz", some 130, some (3/10), some (17/10), some (5/2)⟩]) =
      .ok "Arroz" (.finite 150)
        (max 0 (bankerRound (130 / 100 * 150 / 60 + 3/10 / 100 * 150 / 9))) :=
  ⟨by norm_num,
   calculate_score_formula ⟨some "Arroz", some (.s "150"), none, none⟩
     [⟨"Arroz", some 130, some (3/10), some (17/10), some (5/2)⟩]
     "Arroz" (.s "150") 150 130 (3/10)
     ⟨"Arroz", some 130, some (3/10), some (17/10), some (5/2)⟩
     rfl (by decide) rfl (by with_unfolding_all decide) (by norm_num)
     (by with_unfolding_all decide) rfl rfl⟩

/-- C2 (code bug): a stored row with `gordura_total_g = NULL` does not
behave like the same row with fat `0`.  The handler evaluates
`float(None)` at line 122 and raises `TypeError` (an unhandled HTTP
500), although its own scoring function `calcular_pontos` has an
explicit `None` guard; with fat `0` the same request scores 15. -/
theorem nullFat_crash_eval :
    calculate ⟨some "Azeite", some (.s "100"), none, none⟩
        (some [⟨"Azeite", some 884, none, none, none⟩]) = .unhandled ∧
    calculate ⟨some "Azeite", some (.s "100"), none, none⟩
        (some [⟨"Azeite", some 884, some 0, none, none⟩]) =
      .ok "Azeite" (.finite 100) 15 :=
  ⟨by with_unfolding_all decide, by with_unfolding_all decide⟩

/-- C3 (counterexample): the quantity string `"inf"` converts to a
float that is not finite, yet validation passes it (`inf <= 0` is
false) and the handler proceeds to the store lookup, answering 404
rather than the 400 the claim requires. -/
theorem quantity_inf_not_rejected :
    pyFloatOfString "inf" = some .posInf ∧
    calculate ⟨some "Arroz", some (.s "inf"), none, none⟩ (some []) =
      .notFound :=
  ⟨by decide, by decide⟩

/-- C3 (amended): `calculate` answers 400 exactly when the food name is
missing or empty, or the quantity is missing, fails to convert to a
float, or converts to a value `v` with `v <= 0` under Python float
comparison — so `+inf` and `nan` pass validation (`nan <= 0` is false)
while `-inf` is rejected.  The right-hand side does not mention the
store: no lookup is involved in the decision. -/
theorem calculate_badRequest_iff (body : ReqBody) (conn : Option (List FoodRow)) :
    calculate body conn = .badRequest ↔ invalidCalcInput body = true := by
  obtain ⟨f, qv, al, qd⟩ := body
  cases f with
  | none => simp [calculate, invalidCalcInput]
  | some name =>
    cases qv with
    | none => simp [calculate, invalidCalcInput]
    | some v =>
      by_cases hn : name = ""
      · subst hn
        simp [calculate, invalidCalcInput]
      · have hbeq : (name == "") = false := by simp [hn]
        cases hfv : pyFloatOfVal v with
        | none =>
          constructor
          · intro _
            simp [invalidCalcInput, hbeq, hfv]
          · intro _
            cases htr : pyTruthy v with
            | false => simp [calculate, hbeq, htr]
            | true => simp [calculate, hbeq, htr, hfv]
        | some x =>
          cases hle : pyLe x (.finite 0) with
          | true =>
            constructor
            · intro _
              simp [invalidCalcInput, hbeq, hfv, hle]
            · intro _
              cases htr : pyTruthy v with
              | false => simp [calculate, hbeq, htr]
              | true => simp [calculate, hbeq, htr, hfv, hle]
          | false =>
            constructor
            · intro h
              exact absurd h
                (calculate_valid_ne_badRequest name v x al qd conn hn hfv hle)
            · intro h
              simp [invalidCalcInput, hbeq, hfv, hle] at h

theorem calculate_badRequest_iff_witness :
    invalidCalcInput ⟨some "Arroz", some (.s "-3"), none, none⟩ = true ∧
    calculate ⟨some "Arroz", some (.s "-3"), none, none⟩ (some []) =
      .badRequest :=
  ⟨by with_unfolding_all decide,
   (calculate_badRequest_iff ⟨some "Arroz", some (.s "-3"), none, none⟩
      (some [])).mpr (by with_unfolding_all decide)⟩

/-- C4 (counterexample): the handler interpolates the query string into
the `ILIKE` pattern without escaping, so SQL wildcards in the query act
as wildcards: the two-character query `"a_"` returns the stored name
`"ab"`, which does not start with the literal text `"a_"`. -/
theorem search_wildcard_cex :
    (search "a_" (some [⟨"ab", none, none, none, none⟩])).1 = .ok ["ab"] ∧
    startsWithCI "a_" "ab" = false :=
  ⟨by decide, by decide⟩

/-- C4 (amended): for a query of length `>= 2` containing no SQL
wildcard (`%`, `_`) and no escape character (`\`), `search` returns
exactly the stored names that start case-insensitively with the query,
sorted by name, truncated to the first 10, and reports that the store
was queried. -/
theorem search_clean_query_spec (q : String) (store : List FoodRow)
    (hlen : 2 ≤ q.length)
    (hclean : ∀ c ∈ q.data, c ≠ '%' ∧ c ≠ '_' ∧ c ≠ '\\') :
    search q (some store) =
      (.ok ((sortNames ((store.map (·.nome_alimento)).filter
          (fun n => startsWithCI q n))).take 10), true) := by
  have hnl : ¬ q.length < 2 := by omega
  simp only [search, hnl, if_false]
  have hfeq : ((store.map (·.nome_alimento)).filter
        (fun n => ilikeMatch (q.data ++ ['%']) n.data)) =
      ((store.map (·.nome_alimento)).filter (fun n => startsWithCI q n)) := by
    apply List.filter_congr
    intro n _
    rw [ilike_clean_eq_isPrefixOf q.data hclean n.data]
    rfl
  rw [hfeq]

theorem search_clean_query_spec_witness :
    2 ≤ "ar".length ∧
    (∀ c ∈ "ar".data, c ≠ '%' ∧ c ≠ '_' ∧ c ≠ '\\') ∧
    search "ar"
        (some [⟨"Feijao", none, none, none, none⟩,
               ⟨"Arroz", none, none, none, none⟩,
               ⟨"arara", none, none, none, none⟩]) =
      (.ok ((sortNames ((([⟨"Feijao", none, none, none, none⟩,
               ⟨"Arroz", none, none, none, none⟩,
               ⟨"arara", none, none, none, none⟩] : List FoodRow).map
            (·.nome_alimento)).filter
          (fun n => startsWithCI "ar" n))).take 10), true) :=
  ⟨by decide, by decide,
   search_clean_query_spec "ar"
     [⟨"Feijao", none, none, none, none⟩,
      ⟨"Arroz", none, none, none, none⟩,
      ⟨"arara", none, none, none, none⟩] (by decide) (by decide)⟩

/-- C5: a query of length 0 or 1 yields the empty result without any
store access: the result does not depend on the connection argument at
all (`false` records that `get_db_connection` was never called). -/
theorem search_short_query_no_store (q : String) (conn : Option (List FoodRow))
    (h : q.length < 2) : search q conn = (.ok [], false) := by
  simp [search, h]

theorem search_short_query_no_store_witness :
    ("a".length < 2) ∧ search "a" none = (.ok [], false) :=
  ⟨by decide, search_short_query_no_store "a" none (by decide)⟩

/-- C6: on valid input whose name matches no stored row under exact,
case-sensitive string equality, `calculate` answers 404 and produces no
score; and under the table's uniqueness invariant the exact-name lookup
concerns at most one row. -/
theorem notFound_on_no_exact_match :
    (∀ (store : List FoodRow) (name : String) (qv : PyVal) (x : PyFloat)
       (al : Option String) (qd : Option PyVal),
      name ≠ "" →
      pyFloatOfVal qv = some x →
      pyLe x (.finite 0) = false →
      (∀ row ∈ store, row.nome_alimento ≠ name) →
      calculate ⟨some name, some qv, al, qd⟩ (some store) = .notFound) ∧
    (∀ (name : String) (store : List FoodRow),
      (store.map (·.nome_alimento)).Nodup →
      (store.filter (fun r => r.nome_alimento == name)).length ≤ 1) := by
  constructor
  · intro store name qv x al qd hn hp hle hnone
    have htr := pyTruthy_of_parse qv x hp hle
    have hbeq : (name == "") = false := by simp [hn]
    have hlk : lookupFood name store = none := by
      rw [lookupFood, List.find?_eq_none]
      intro r hr
      simp [hnone r hr]
    simp [calculate, hbeq, htr, hp, hle, hlk]
  · exact fun name store hnd => filter_name_length_le_one name store hnd

theorem notFound_on_no_exact_match_witness :
    (∀ row ∈ [(⟨"Arroz", some 130, some (3/10), none, none⟩ : FoodRow)],
      row.nome_alimento ≠ "arroz") ∧
    calculate ⟨some "arroz", some (.n (.finite 100)), none, none⟩
        (some [⟨"Arroz", some 130, some (3/10), none, none⟩]) = .notFound :=
  ⟨by decide,
   notFound_on_no_exact_match.1 [⟨"Arroz", some 130, some (3/10), none, none⟩]
     "arroz" (.n (.finite 100)) (.finite 100)
     none none (by decide) rfl (by with_unfolding_all decide) (by decide)⟩

/-- C7: the score produced by `calcular_pontos` — and hence the score
in every successful `/calculate` response — is a non-negative integer,
for all inputs, including those making the raw formula value negative
(the final `max(0, ...)` clamp). -/
theorem score_nonneg :
    (∀ (c g : Option PyFloat) (n : ℤ), calcular_pontos c g = .ok n → 0 ≤ n) ∧
    (∀ (body : ReqBody) (conn : Option (List FoodRow)) (fn : String)
       (qty : PyFloat) (pts : ℤ),
      calculate body conn = .ok fn qty pts → 0 ≤ pts) := by
  refine ⟨calcularPontos_nonneg, ?_⟩
  intro body conn fn qty pts h
  unfold calculate at h
  repeat' split at h
  all_goals cases h
  rename_i r hcp
  exact calcularPontos_nonneg _ _ _ hcp

theorem score_nonneg_witness :
    calcular_pontos (some (.finite 10)) (some (.finite (-200))) = .ok 0 ∧
    (0 : ℤ) ≤ 0 :=
  ⟨by with_unfolding_all decide,
   score_nonneg.1 (some (.finite 10)) (some (.finite (-200))) 0
     (by with_unfolding_all decide)⟩

/-- C8 (counterexample): a JSON body using the Portuguese keys
`alimento`/`quantidade` is rejected with 400, while the same data under
`food`/`quantity` is scored — the two encodings are not equivalent. -/
theorem portuguese_keys_rejected :
    calculate ⟨none, none, some "Arroz", some (.s "100")⟩
        (some [⟨"Arroz", some 130, some (3/10), none, none⟩]) = .badRequest ∧
    calculate ⟨some "Arroz", some (.s "100"), none, none⟩
        (some [⟨"Arroz", some 130, some (3/10), none, none⟩]) =
      .ok "Arroz" (.finite 100) 2 :=
  ⟨rfl, by with_unfolding_all decide⟩

/-- C8 (amended): the handler reads only the JSON keys `food` and
`quantity` (`data.get('food')`, `data.get('quantity')`); the
`alimento`/`quantidade` keys are ignored, so a body carrying only those
is answered 400. -/
theorem calculate_reads_only_food_quantity :
    (∀ (f : Option String) (q : Option PyVal) (a₁ a₂ : Option String)
       (q₁ q₂ : Option PyVal) (conn : Option (List FoodRow)),
      calculate ⟨f, q, a₁, q₁⟩ conn = calculate ⟨f, q, a₂, q₂⟩ conn) ∧
    (∀ (a : Option String) (qd : Option PyVal) (conn : Option (List FoodRow)),
      calculate ⟨none, none, a, qd⟩ conn = .badRequest) :=
  ⟨fun _ _ _ _ _ _ _ => rfl, fun _ _ _ => rfl⟩

/-- C9 (implicit): `calcular_pontos` returns 0 whenever either argument
is `None`; it neither scores the remaining nutrient alone nor fails. -/
theorem calcular_pontos_none_zero :
    (∀ g, calcular_pontos none g = .ok 0) ∧
    (∀ c, calcular_pontos c none = .ok 0) := by
  constructor
  · intro g; cases g <;> rfl
  · intro c; cases c <;> rfl

/-- C10 (implicit): the scoring function rounds half to even: whenever
the raw value `C/60 + F/9` is exactly `k + 1/2`, the score is the even
neighbour (clamped at 0). -/
theorem bankers_rounding_halfway (c g : ℚ) (k : ℤ)
    (h : c / 60 + g / 9 = (k : ℚ) + 1/2) :
    calcular_pontos (some (.finite c)) (some (.finite g)) =
      .ok (max 0 (if k % 2 = 0 then k else k + 1)) := by
  simp only [calcular_pontos, pyDivPos, pyAdd, pyRound, h, bankerRound_half]

theorem bankers_rounding_halfway_witness :
    ((150 : ℚ) / 60 + 0 / 9 = ((2 : ℤ) : ℚ) + 1/2) ∧
    calcular_pontos (some (.finite 150)) (some (.finite 0)) =
      .ok (max 0 (if (2 : ℤ) % 2 = 0 then 2 else 2 + 1)) :=
  ⟨by norm_num, bankers_rounding_halfway 150 0 2 (by norm_num)⟩

